import Mathlib

/-
Shallow embedding of `src/pnl_gui.py` (Terminal-pnl).

The script loads a trading journal from a CSV/Excel file into a pandas
dataframe (`TradingJournal.load_data`), renders each row of the journal as
a styled table row (`TradingJournal.display_trades`), and prints summary
statistics computed from the whole `PnL` column (`TradingJournal.display_summary`).

Modelling conventions:
  * Machine floats are modelled as rationals (no NaN/inf/exponent inputs:
    none of the verified properties involve floating-point special values).
  * pandas cells of the `PnL` column are modelled by `Cell`: a column read
    with object dtype holds `Cell.str` values, a column read with a numeric
    dtype holds `Cell.num` values (pandas columns are homogeneous as read).
  * The filesystem / pandas reader is an explicit parameter
    `fs : String → ReadOutcome` giving the outcome of the `pd.read_csv` /
    `pd.read_excel` call on a path; console output is modelled by the
    returned values (rendered rows, summary result, load report).
-/

set_option autoImplicit false

namespace PnlGui

/-! ### Python string and float primitives -/

/-- Python's `str.strip()` (also the whitespace tolerance of `float(...)`):
drop whitespace from both ends. -/
def pyStrip (s : String) : String :=
  String.mk (((s.toList.dropWhile Char.isWhitespace).reverse.dropWhile
      Char.isWhitespace).reverse)

/-- Python's `s.replace(c, '')` for a single-character pattern: remove every
occurrence of the character. -/
def removeChar (c : Char) (s : String) : String :=
  String.mk (s.toList.filter (fun x => x ≠ c))

/-- Lines 74 and 107: `.replace('$', '').replace(',', '')`. -/
def stripDollarsCommas (s : String) : String :=
  removeChar ',' (removeChar '$' s)

/-- Value of a digit string (most significant first). -/
def digitsToNat (cs : List Char) : ℕ :=
  cs.foldl (fun a c => a * 10 + (c.toNat - 48)) 0

/-- Unsigned decimal literal: digits with an optional decimal point, at least
one digit present (`"50"`, `"1234.56"`, `".5"`, `"5."`). -/
def decimalMagnitude? (cs : List Char) : Option ℚ :=
  let ip := cs.takeWhile Char.isDigit
  let rest := cs.dropWhile Char.isDigit
  match rest with
  | [] => if ip.isEmpty then none else some ((digitsToNat ip : ℚ))
  | '.' :: fp =>
    if fp.all Char.isDigit && !(ip.isEmpty && fp.isEmpty) then
      some (mkRat (digitsToNat ip * 10 ^ fp.length + digitsToNat fp) (10 ^ fp.length))
    else none
  | _ => none

/-- Python's `float(s)` on plain signed decimal text: surrounding whitespace
is ignored, an optional leading sign precedes a decimal literal; anything
else (blank, non-numeric text) fails. -/
def pyFloat? (s : String) : Option ℚ :=
  match (pyStrip s).toList with
  | '+' :: rest => decimalMagnitude? rest
  | '-' :: rest => (decimalMagnitude? rest).map (fun q => -q)
  | cs => decimalMagnitude? cs

/-- The currency parse used by both the row path (line 74) and the column
path (line 107): remove `$` and `,`, then convert to float. -/
def parse_pnl (s : String) : Option ℚ :=
  pyFloat? (stripDollarsCommas s)

/-! ### Cells, records and the trade log -/

/-- A cell of the `PnL` column as ingested by the reader: text (object
dtype) or an already-numeric value (float/int dtype). -/
inductive Cell where
  | str (s : String)
  | num (q : ℚ)
deriving DecidableEq

/-- Whether a cell is numeric (the column was ingested with numeric dtype). -/
def Cell.isNum : Cell → Bool
  | .str _ => false
  | .num _ => true

/-- A cell of the `date` column: `parsed` models a `datetime` produced by
`pd.to_datetime`, `raw` models a value never converted (no date column
normalization applied), on which `.strftime` raises. -/
inductive DateCell where
  | raw (s : String)
  | parsed (y m d : ℕ)
deriving DecidableEq

/-- Whether the date cell is a datetime value. -/
def DateCell.isParsed : DateCell → Bool
  | .raw _ => false
  | .parsed _ _ _ => true

/-- One row of the loaded dataframe, restricted to the columns the script
reads (`date`, `trading session`, `quantity`, `risk:reward`, `PnL`,
`percentage change`, `comments`); the non-PnL display columns are free text
rendered with `str(...)`, which never fails. -/
structure TradeRecord where
  date : DateCell
  session : String
  quantity : String
  riskReward : String
  pnl : Cell
  percentChange : String
  comments : String
deriving DecidableEq

/-- The loaded dataframe `self.data`: an ordered sequence of rows. -/
structure TradeLog where
  records : List TradeRecord
deriving DecidableEq

/-- `pd.DataFrame()`: the empty trade log assigned on every load failure. -/
def emptyLog : TradeLog := ⟨[]⟩

/-! ### Row rendering (`display_trades`, lines 48-100) -/

/-- Lines 73-74 for one row: `pnl_str = str(row['PnL']).strip()` then
`float(pnl_str.replace('$', '').replace(',', ''))`. For a numeric-dtype
cell, `float(str(x).strip())` round-trips the value (Python float repr is
exact), so the parse yields the cell's value. -/
def rowPnl? : Cell → Option ℚ
  | .str s => pyFloat? (stripDollarsCommas (pyStrip s))
  | .num q => some q

/-- `str(row['PnL']).strip()`, the text shown in the PnL column. For a
numeric cell this abstracts Python's float repr; its exact spelling is not
used by any verified property. -/
def cellDisplayStr : Cell → String
  | .str s => pyStrip s
  | .num q => toString q

/-- Zero-pad a number to two digits (strftime `%m` / `%d`). -/
def pad2 (n : ℕ) : String :=
  if n < 10 then "0" ++ toString n else toString n

/-- Zero-pad a number to four digits (strftime `%Y`). -/
def pad4 (n : ℕ) : String :=
  if n < 10 then "000" ++ toString n
  else if n < 100 then "00" ++ toString n
  else if n < 1000 then "0" ++ toString n
  else toString n

/-- Line 78: `row['date'].strftime('%Y-%m-%d')`. -/
def formatDate (y m d : ℕ) : String :=
  pad4 y ++ "-" ++ pad2 m ++ "-" ++ pad2 d

/-- One rendered table row (lines 77-85), with the style annotations the
presenter consumes. -/
structure RenderedRow where
  date : String
  session : String
  quantity : String
  riskReward : String
  pnlText : String
  pnlStyleProfit : Bool
  percentChange : String
  comments : String
deriving DecidableEq

/-- Lines 71-88: render one row inside `try`. The PnL parse (lines 73-74)
runs first; then `strftime` on the date cell (line 78) requires a datetime
value. Any failure is caught by the `except` (lines 86-88) and the row is
skipped (`continue`). Line 75: style is `"profit"` iff `pnl_value >= 0`. -/
def renderRow (r : TradeRecord) : Option RenderedRow :=
  match rowPnl? r.pnl with
  | none => none
  | some pnl_value =>
    match r.date with
    | DateCell.raw _ => none
    | DateCell.parsed y m d =>
      some {
        date := formatDate y m d
        session := r.session
        quantity := r.quantity
        riskReward := r.riskReward
        pnlText := cellDisplayStr r.pnl
        pnlStyleProfit := decide ((0 : ℚ) ≤ pnl_value)
        percentChange := r.percentChange ++ "%"
        comments := r.comments }

/-- Lines 70-88: the sequence of rows added to the table; a failing row is
skipped and iteration continues with the next. -/
def display_trades (log : TradeLog) : List RenderedRow :=
  log.records.filterMap renderRow

/-- `display_trades` as a method on the journal state: it reads `self.data`
and never assigns it, so the state component is returned unchanged. -/
def display_trades_proc (log : TradeLog) : TradeLog × List RenderedRow :=
  (log, display_trades log)

/-! ### Summary statistics (`display_summary`, lines 102-120) -/

/-- Effectful traversal of a list with an `Option`-valued function,
short-circuiting on the first failure (the all-or-nothing column
operations: `.astype(float)` on a column, `pd.to_datetime` on a column). -/
def traverseOption {α β : Type} (f : α → Option β) : List α → Option (List β)
  | [] => some []
  | a :: l =>
    match f a with
    | none => none
    | some b =>
      match traverseOption f l with
      | none => none
      | some bs => some (b :: bs)

/-- Line 107 per cell:
`self.data['PnL'].str.replace('$', '').str.replace(',', '').astype(float)`.
The `.str` accessor raises `AttributeError` on a numeric-dtype column, so a
numeric cell fails; a text cell is stripped of `$`/`,` and converted, and
`astype(float)` raises `ValueError` on non-numeric remainders. -/
def summaryCellFloat? : Cell → Option ℚ
  | .str s => pyFloat? (stripDollarsCommas s)
  | .num _ => none

/-- Line 107 for the whole column: a single failing cell fails the whole
conversion (the raised exception aborts the statistics block). -/
def summaryPnlValues? (log : TradeLog) : Option (List ℚ) :=
  traverseOption summaryCellFloat? (log.records.map (fun r => r.pnl))

/-- Line 108: `sum(pnl_values > 0)` — the number of strictly positive
values. -/
def summaryProfitable (vals : List ℚ) : ℕ :=
  vals.countP (fun v => decide ((0 : ℚ) < v))

/-- Line 106: `total_trades = len(self.data)`. -/
def summaryTotalTrades (log : TradeLog) : ℕ :=
  log.records.length

/-- The summary block's printed numbers (lines 111-118), with the style
annotations of lines 117-118. -/
structure SummaryStats where
  total : ℕ
  profitable : ℕ
  losing : ℕ
  winRate : ℚ
  winRateProfit : Bool
  totalPnl : ℚ
  totalPnlProfit : Bool
deriving DecidableEq

/-- Outcome of `display_summary`: nothing printed when the dataframe is
empty (line 104), the caught-exception diagnostic of lines 119-120, or the
printed statistics. -/
inductive SummaryResult where
  | noData
  | error
  | stats (s : SummaryStats)
deriving DecidableEq

/-- Lines 102-120. Inside the non-empty branch `total_trades` is the row
count, so the `if total_trades > 0` guard of line 115 always holds and the
win rate and total P&L lines are printed whenever the column conversion of
line 107 succeeded. Line 116: `win_rate = (profitable_trades/total_trades) * 100`
(true division); line 117 styles it `"profit"` iff `win_rate >= 50`;
line 118 styles the total `"profit"` iff `pnl_values.sum() >= 0`. -/
def display_summary (log : TradeLog) : SummaryResult :=
  if log.records = [] then SummaryResult.noData
  else
    let total_trades := summaryTotalTrades log
    match summaryPnlValues? log with
    | none => SummaryResult.error
    | some pnl_values =>
      let profitable_trades := summaryProfitable pnl_values
      let win_rate := ((profitable_trades : ℚ) / (total_trades : ℚ)) * 100
      SummaryResult.stats {
        total := total_trades
        profitable := profitable_trades
        losing := total_trades - profitable_trades
        winRate := win_rate
        winRateProfit := decide ((50 : ℚ) ≤ win_rate)
        totalPnl := pnl_values.sum
        totalPnlProfit := decide ((0 : ℚ) ≤ pnl_values.sum) }

/-- `display_summary` as a method on the journal state: it reads `self.data`
and never assigns it, so the state component is returned unchanged. -/
def display_summary_proc (log : TradeLog) : TradeLog × SummaryResult :=
  (log, display_summary log)

/-! ### File loading (`load_data`, lines 25-46) -/

/-- Python's `str.lower()` on ASCII text. -/
def lowerStr (s : String) : String :=
  String.mk (s.toList.map Char.toLower)

/-- Last path component (text after the final `/`), as in `os.path`
basename handling on POSIX. -/
def lastComponent (s : String) : String :=
  String.mk ((s.toList.reverse.takeWhile (fun c => c ≠ '/')).reverse)

/-- Extension from the last dot (dot included), `none` when no dot. -/
def extFromLastDot : List Char → Option (List Char)
  | [] => none
  | c :: rest =>
    match extFromLastDot rest with
    | some e => some e
    | none => if c = '.' then some (c :: rest) else none

/-- `os.path.splitext(path)[1]`: the extension of the last path component
from its last dot, where leading dots of the component never start an
extension (`".bashrc"` has none). -/
def splitextExtension (p : String) : String :=
  let base := (lastComponent p).toList
  let core := base.drop ((base.takeWhile (fun c => c = '.')).length)
  match extFromLastDot core with
  | some e => String.mk e
  | none => ""

/-- Line 27: `os.path.splitext(self.file_path)[1].lower()`. -/
def extLower (p : String) : String :=
  lowerStr (splitextExtension p)

/-- Lines 30-32: the extensions routed to a pandas reader. -/
def supportedExt (e : String) : Bool :=
  e = ".csv" || e = ".xlsx" || e = ".xls"

/-- One row of the raw file as the pandas reader delivers it: the `date`
column value is still text, the `PnL` cell carries its ingested dtype. -/
structure RawRecord where
  date : String
  session : String
  quantity : String
  riskReward : String
  pnl : Cell
  percentChange : String
  comments : String
deriving DecidableEq

/-- The dataframe delivered by `pd.read_csv` / `pd.read_excel`:
`hasDateColumn` records whether a `date` column is present (line 38). -/
structure RawTable where
  hasDateColumn : Bool
  records : List RawRecord
deriving DecidableEq

/-- Outcome of the pandas read call on a path: the file is missing
(`FileNotFoundError`), reading/parsing fails with a message, or a dataframe
is produced. -/
inductive ReadOutcome where
  | fileNotFound
  | readError (msg : String)
  | ok (table : RawTable)
deriving DecidableEq

/-- Which diagnostic `load_data` printed: none (success), the
`except FileNotFoundError` message of line 42, or the generic
`except Exception` message `"Error loading file: ..."` of line 45. -/
inductive LoadReport where
  | success
  | fileNotFound (path : String)
  | loadError (msg : String)
deriving DecidableEq

/-- Whether a report came from the generic `except Exception` handler of
lines 44-46 (`"Error loading file: {str(e)}"`). -/
def isGenericLoadError : LoadReport → Bool
  | .loadError _ => true
  | _ => false

/-- Line 35: the message of the `ValueError` raised for other extensions. -/
def unsupportedFormatMsg : String :=
  "Unsupported file format. Please use CSV or Excel files."

/-- Message of the exception `pd.to_datetime` raises on an unparseable
date value (the exact pandas wording is not relied on anywhere). -/
def dateConversionErrorMsg : String :=
  "Unknown datetime string format in date column."

/-- Gregorian leap year. -/
def isLeapYear (y : ℕ) : Bool :=
  (y % 4 = 0 && y % 100 ≠ 0) || y % 400 = 0

/-- Days in a month of the Gregorian calendar. -/
def daysInMonth (y m : ℕ) : ℕ :=
  if m = 2 then (if isLeapYear y then 29 else 28)
  else if m = 4 || m = 6 || m = 9 || m = 11 then 30
  else 31

/-- Split a character list at every occurrence of a separator. -/
def splitOnChar (c : Char) : List Char → List (List Char)
  | [] => [[]]
  | x :: xs =>
    let r := splitOnChar c xs
    if x = c then [] :: r
    else
      match r with
      | [] => [[x]]
      | g :: gs => (x :: g) :: gs

/-- Line 39 per value: `pd.to_datetime` on one cell, modelled on its
ISO-format core (`YYYY-MM-DD` with calendar validation); only the
success/failure of the conversion is relied on by the verified
properties. -/
def parseDate (s : String) : Option (ℕ × ℕ × ℕ) :=
  match splitOnChar '-' (pyStrip s).toList with
  | [ys, ms, ds] =>
    if ys.length = 4 && ys.all Char.isDigit
        && !ms.isEmpty && ms.length ≤ 2 && ms.all Char.isDigit
        && !ds.isEmpty && ds.length ≤ 2 && ds.all Char.isDigit then
      let y := digitsToNat ys
      let m := digitsToNat ms
      let d := digitsToNat ds
      if 1 ≤ m && m ≤ 12 && 1 ≤ d && d ≤ daysInMonth y m then
        some (y, m, d)
      else none
    else none
  | _ => none

/-- A raw row when no `date` column exists to convert: all fields kept,
the date cell left unconverted. -/
def rawToRecord (r : RawRecord) : TradeRecord :=
  { date := DateCell.raw r.date
    session := r.session
    quantity := r.quantity
    riskReward := r.riskReward
    pnl := r.pnl
    percentChange := r.percentChange
    comments := r.comments }

/-- Line 39 for the whole column: `pd.to_datetime(self.data['date'])`
converts every value; one unparseable value raises and fails the whole
conversion. -/
def parseRecordDates (rs : List RawRecord) : Option (List TradeRecord) :=
  traverseOption
    (fun r =>
      (parseDate r.date).map (fun ymd =>
        ({ date := DateCell.parsed ymd.1 ymd.2.1 ymd.2.2
           session := r.session
           quantity := r.quantity
           riskReward := r.riskReward
           pnl := r.pnl
           percentChange := r.percentChange
           comments := r.comments } : TradeRecord)))
    rs

/-- Lines 25-46. The extension is examined first (lines 27-35): an
unsupported extension raises `ValueError` before any file access, and that
exception — like every non-`FileNotFoundError` failure, including a date
conversion failure on line 39 — is caught by the generic handler of lines
44-46, which prints `"Error loading file: ..."` and leaves an empty
dataframe. `FileNotFoundError` from the reader is caught on lines 41-43.
The function is total: every failure becomes a report plus `emptyLog`. -/
def load_data (path : String) (fs : String → ReadOutcome) : TradeLog × LoadReport :=
  let file_extension := extLower path
  if supportedExt file_extension then
    match fs path with
    | ReadOutcome.fileNotFound => (emptyLog, LoadReport.fileNotFound path)
    | ReadOutcome.readError msg => (emptyLog, LoadReport.loadError msg)
    | ReadOutcome.ok t =>
      if t.hasDateColumn then
        match parseRecordDates t.records with
        | some recs => (⟨recs⟩, LoadReport.success)
        | none => (emptyLog, LoadReport.loadError dateConversionErrorMsg)
      else (⟨t.records.map rawToRecord⟩, LoadReport.success)
  else (emptyLog, LoadReport.loadError unsupportedFormatMsg)

/-! ### General lemmas about the embedding's combinators -/

/-- A traversal fails whenever one element fails. -/
theorem traverseOption_eq_none_of_mem {α β : Type} (f : α → Option β)
    {l : List α} {x : α} (hx : x ∈ l) (hfx : f x = none) :
    traverseOption f l = none := by
  induction l with
  | nil => cases hx
  | cons a t ih =>
    rcases List.mem_cons.mp hx with h | h
    · subst h
      simp [traverseOption, hfx]
    · unfold traverseOption
      cases hfa : f a with
      | none => rfl
      | some b => rw [ih h]

/-- Every output of a successful traversal satisfies any property that all
successful images of `f` satisfy. -/
theorem traverseOption_forall_of_some {α β : Type} {f : α → Option β}
    {P : β → Prop} (hP : ∀ a b, f a = some b → P b) :
    ∀ {l : List α} {bs : List β}, traverseOption f l = some bs → ∀ b ∈ bs, P b := by
  intro l
  induction l with
  | nil =>
    intro bs h b hb
    simp only [traverseOption, Option.some_inj] at h
    subst h
    cases hb
  | cons a t ih =>
    intro bs h b hb
    unfold traverseOption at h
    cases hfa : f a with
    | none => rw [hfa] at h; cases h
    | some c =>
      rw [hfa] at h
      cases ht : traverseOption f t with
      | none => rw [ht] at h; cases h
      | some cs =>
        rw [ht] at h
        cases h
        rcases List.mem_cons.mp hb with hbc | hbc
        · subst hbc; exact hP a b hfa
        · exact ih ht b hbc

/-- `filterMap` keeps the length when the function succeeds everywhere. -/
theorem length_filterMap_of_all_isSome {α β : Type} (f : α → Option β) :
    ∀ (l : List α), (∀ a ∈ l, (f a).isSome) → (l.filterMap f).length = l.length := by
  intro l
  induction l with
  | nil => intro _; rfl
  | cons a t ih =>
    intro h
    have ha := h a (List.mem_cons_self a t)
    cases hfa : f a with
    | none => rw [hfa] at ha; cases ha
    | some b =>
      simp only [List.filterMap_cons, hfa, List.length_cons]
      rw [ih (fun x hx => h x (List.mem_cons_of_mem a hx))]

/-! ### Concrete fixtures used by the closed instances below -/

/-- A well-formed record (converted date, plain text fields) with a given
PnL cell. -/
def mkRecord (c : Cell) : TradeRecord :=
  { date := DateCell.parsed 2024 1 1
    session := "London"
    quantity := "2"
    riskReward := "1:3"
    pnl := c
    percentChange := "1.5"
    comments := "note" }

/-- A raw file row with a given date text and PnL cell. -/
def mkRaw (d : String) (c : Cell) : RawRecord :=
  { date := d
    session := "NY"
    quantity := "1"
    riskReward := "1:2"
    pnl := c
    percentChange := "0.4"
    comments := "raw" }

/-- A one-trade journal (PnL `"$10"`). -/
def logOne : TradeLog := ⟨[mkRecord (Cell.str "$10")]⟩

/-- The summary `display_summary` computes for `logOne`, written in the
computation's own shape. -/
def statsOne : SummaryStats :=
  { total := 1
    profitable := 1
    losing := 0
    winRate := ((1 : ℕ) : ℚ) / ((1 : ℕ) : ℚ) * 100
    winRateProfit := decide ((50 : ℚ) ≤ ((1 : ℕ) : ℚ) / ((1 : ℕ) : ℚ) * 100)
    totalPnl := List.sum [((10 : ℕ) : ℚ)]
    totalPnlProfit := decide ((0 : ℚ) ≤ List.sum [((10 : ℕ) : ℚ)]) }

/-- The rendered row produced for `mkRecord (Cell.str "$0")`. -/
def rowZero : RenderedRow :=
  { date := formatDate 2024 1 1
    session := "London"
    quantity := "2"
    riskReward := "1:3"
    pnlText := "$0"
    pnlStyleProfit := true
    percentChange := "1.5%"
    comments := "note" }

/-- The three-trade journal of the end-to-end scenario
(`"$100"`, `"-$50"`, `"$0"`). -/
def logThree : TradeLog :=
  ⟨[mkRecord (Cell.str "$100"), mkRecord (Cell.str "-$50"), mkRecord (Cell.str "$0")]⟩

/-- A one-row raw table whose date parses. -/
def tableGoodDates : RawTable := ⟨true, [mkRaw "2024-01-02" (Cell.str "$5")]⟩

/-- A one-row raw table whose date does not parse. -/
def tableBadDate : RawTable := ⟨true, [mkRaw "notadate" (Cell.str "$5")]⟩

/-- The record `load_data` produces for the row of `tableGoodDates`. -/
def recGoodDate : TradeRecord :=
  { date := DateCell.parsed 2024 1 2
    session := "NY"
    quantity := "1"
    riskReward := "1:2"
    pnl := Cell.str "$5"
    percentChange := "0.4"
    comments := "raw" }

/-- A two-row raw table whose PnL column was ingested numerically. -/
def tableNumericPnl : RawTable :=
  ⟨true, [mkRaw "2024-01-05" (Cell.num 100), mkRaw "2024-01-06" (Cell.num (-(50 : ℚ)))]⟩

/-! ### Claims -/

/-- C2: `parse_pnl` removes all `$` and `,` characters from its input and
parses the remainder as a signed decimal: `parse_pnl "$1,234.56" = 1234.56`,
`parse_pnl "-$50" = -50.0`, and an input whose remainder is not numeric
(`"abc"`, blank) fails rather than returning a value. -/
theorem parse_pnl_currency_spec :
    (∀ s : String, (stripDollarsCommas s).toList
        = s.toList.filter (fun c => c ≠ '$' && c ≠ ','))
    ∧ parse_pnl "$1,234.56" = some ((1234.56 : ℚ))
    ∧ parse_pnl "-$50" = some ((-50 : ℚ))
    ∧ parse_pnl "abc" = none
    ∧ parse_pnl "" = none := by
  refine ⟨?_, ?_, by decide, by decide, by decide⟩
  · intro s
    show ((s.toList.filter _).filter _) = _
    rw [List.filter_filter]
    congr 1
    funext c
    exact Bool.and_comm _ _
  · have h : parse_pnl "$1,234.56" = some (mkRat 123456 100) := by decide
    rw [h, Option.some_inj]
    norm_num [Rat.mkRat_eq_div]

/-- C1: for every loaded TradeLog containing at least one record whose PnL
value is non-numeric text after stripping `$` and `,`, rendering skips
exactly the failing row and continues with the remaining rows, that row is
still counted in the total the summary computes (`len(self.data)`), and the
aggregate statistics computation fails as a whole and reports an error
instead of producing partial statistics. -/
theorem display_trades_skips_bad_pnl_row_and_summary_aborts
    (pre post : List TradeRecord) (bad : TradeRecord) (s : String)
    (hcell : bad.pnl = Cell.str s)
    (hrow : pyFloat? (stripDollarsCommas (pyStrip s)) = none)
    (hcol : pyFloat? (stripDollarsCommas s) = none) :
    renderRow bad = none
    ∧ display_trades ⟨pre ++ bad :: post⟩
        = display_trades ⟨pre⟩ ++ display_trades ⟨post⟩
    ∧ summaryTotalTrades ⟨pre ++ bad :: post⟩ = pre.length + post.length + 1
    ∧ display_summary ⟨pre ++ bad :: post⟩ = SummaryResult.error := by
  have hbad : renderRow bad = none := by
    have h1 : rowPnl? (Cell.str s) = none := hrow
    unfold renderRow
    rw [hcell, h1]
  refine ⟨hbad, ?_, ?_, ?_⟩
  · simp [display_trades, List.filterMap_append, List.filterMap_cons, hbad]
  · simp only [summaryTotalTrades, List.length_append, List.length_cons]
    omega
  · have hne : pre ++ bad :: post ≠ [] := by simp
    have hnone : summaryPnlValues? ⟨pre ++ bad :: post⟩ = none := by
      unfold summaryPnlValues?
      apply traverseOption_eq_none_of_mem (x := bad.pnl)
      · exact List.mem_map_of_mem _ (by simp)
      · rw [hcell]
        exact hcol
    unfold display_summary
    rw [if_neg hne, hnone]

/-- Witness for C1: journal `["$100", "abc", "-$50"]`. -/
theorem display_trades_skips_bad_pnl_row_and_summary_aborts_witness :
    renderRow (mkRecord (Cell.str "abc")) = none
    ∧ display_trades
        ⟨[mkRecord (Cell.str "$100")] ++ mkRecord (Cell.str "abc") :: [mkRecord (Cell.str "-$50")]⟩
        = display_trades ⟨[mkRecord (Cell.str "$100")]⟩
          ++ display_trades ⟨[mkRecord (Cell.str "-$50")]⟩
    ∧ summaryTotalTrades
        ⟨[mkRecord (Cell.str "$100")] ++ mkRecord (Cell.str "abc") :: [mkRecord (Cell.str "-$50")]⟩
        = 1 + 1 + 1
    ∧ display_summary
        ⟨[mkRecord (Cell.str "$100")] ++ mkRecord (Cell.str "abc") :: [mkRecord (Cell.str "-$50")]⟩
        = SummaryResult.error :=
  display_trades_skips_bad_pnl_row_and_summary_aborts
    [mkRecord (Cell.str "$100")] [mkRecord (Cell.str "-$50")]
    (mkRecord (Cell.str "abc")) "abc" rfl (by decide) (by decide)

/-- C3: for every non-empty TradeLog whose PnL column fully parses,
the summary reports total = number of records (row count of the log),
profitable = number of records with parsed pnl strictly greater than 0,
losing = total minus profitable, and total_pnl = sum of parsed values. -/
theorem compute_summary_formulas
    (log : TradeLog) (vals : List ℚ)
    (hne : log.records ≠ [])
    (hvals : summaryPnlValues? log = some vals) :
    ∃ st : SummaryStats, display_summary log = SummaryResult.stats st
      ∧ st.total = log.records.length
      ∧ st.profitable = (vals.filter (fun v => (0 : ℚ) < v)).length
      ∧ st.losing = st.total - st.profitable
      ∧ st.totalPnl = vals.sum := by
  refine ⟨{ total := summaryTotalTrades log
            profitable := summaryProfitable vals
            losing := summaryTotalTrades log - summaryProfitable vals
            winRate := ((summaryProfitable vals : ℚ) / (summaryTotalTrades log : ℚ)) * 100
            winRateProfit := decide
              ((50 : ℚ) ≤ ((summaryProfitable vals : ℚ) / (summaryTotalTrades log : ℚ)) * 100)
            totalPnl := vals.sum
            totalPnlProfit := decide ((0 : ℚ) ≤ vals.sum) }, ?_, rfl, ?_, rfl, rfl⟩
  · unfold display_summary
    rw [if_neg hne, hvals]
  · simp [summaryProfitable, List.countP_eq_length_filter]

/-- Witness for C3: journal `["$100", "-$50", "$0"]` parses to
`[100, -50, 0]`. -/
theorem compute_summary_formulas_witness :
    ∃ st : SummaryStats, display_summary logThree = SummaryResult.stats st
      ∧ st.total = 3
      ∧ st.profitable = ([(100 : ℚ), -50, 0].filter (fun v => (0 : ℚ) < v)).length
      ∧ st.losing = st.total - st.profitable
      ∧ st.totalPnl = [(100 : ℚ), -50, 0].sum :=
  compute_summary_formulas logThree [100, -50, 0] (by decide) (by decide)

/-- C4: the win rate is profitable / total * 100 and is only computed when
total is positive; on an empty TradeLog no statistics (hence no win rate)
are produced, and no division by zero occurs on any input. -/
theorem compute_summary_win_rate_guard (log : TradeLog) :
    (log.records = [] → display_summary log = SummaryResult.noData)
    ∧ (∀ st : SummaryStats, display_summary log = SummaryResult.stats st →
        0 < st.total ∧ st.winRate = (st.profitable : ℚ) / (st.total : ℚ) * 100) := by
  constructor
  · intro h
    unfold display_summary
    rw [if_pos h]
  · intro st h
    by_cases hnil : log.records = []
    · unfold display_summary at h
      rw [if_pos hnil] at h
      cases h
    · unfold display_summary at h
      rw [if_neg hnil] at h
      cases hv : summaryPnlValues? log with
      | none =>
        rw [hv] at h
        have h' : SummaryResult.error = SummaryResult.stats st := h
        cases h'
      | some vals =>
        rw [hv] at h
        have h' : SummaryResult.stats
            { total := summaryTotalTrades log
              profitable := summaryProfitable vals
              losing := summaryTotalTrades log - summaryProfitable vals
              winRate := ((summaryProfitable vals : ℚ) / (summaryTotalTrades log : ℚ)) * 100
              winRateProfit := decide
                ((50 : ℚ) ≤ ((summaryProfitable vals : ℚ) / (summaryTotalTrades log : ℚ)) * 100)
              totalPnl := vals.sum
              totalPnlProfit := decide ((0 : ℚ) ≤ vals.sum) }
            = SummaryResult.stats st := h
        injection h' with h''
        subst h''
        refine ⟨?_, rfl⟩
        simpa [summaryTotalTrades] using List.length_pos.mpr hnil

/-- Witness for C4: the empty journal produces no statistics; a one-trade
journal produces statistics with positive total and the win-rate formula. -/
theorem compute_summary_win_rate_guard_witness :
    display_summary (⟨[]⟩ : TradeLog) = SummaryResult.noData
    ∧ (0 < statsOne.total
        ∧ statsOne.winRate = (statsOne.profitable : ℚ) / (statsOne.total : ℚ) * 100) :=
  ⟨(compute_summary_win_rate_guard ⟨[]⟩).1 rfl,
   (compute_summary_win_rate_guard logOne).2 statsOne (by rfl)⟩

/-- C5: the favorable/unfavorable classification uses inclusive-zero
thresholds everywhere: a rendered row is styled favorable iff its parsed
pnl is at least 0 (only strictly negative pnl is unfavorable), the win rate
is favorable iff it is at least 50, the total PnL is favorable iff it is at
least 0; and a zero-pnl row is styled favorable even though it is not
counted as profitable (which requires strictly positive pnl). -/
theorem favorable_threshold_contract :
    (∀ (r : TradeRecord) (row : RenderedRow) (v : ℚ),
        renderRow r = some row → rowPnl? r.pnl = some v →
        (row.pnlStyleProfit = true ↔ 0 ≤ v))
    ∧ (∀ (log : TradeLog) (st : SummaryStats),
        display_summary log = SummaryResult.stats st →
        ((st.winRateProfit = true ↔ 50 ≤ st.winRate)
          ∧ (st.totalPnlProfit = true ↔ 0 ≤ st.totalPnl)))
    ∧ (∀ (r : TradeRecord) (row : RenderedRow),
        renderRow r = some row → rowPnl? r.pnl = some 0 →
        row.pnlStyleProfit = true)
    ∧ (∀ vals : List ℚ, summaryProfitable ((0 : ℚ) :: vals) = summaryProfitable vals) := by
  have hrow : ∀ (r : TradeRecord) (row : RenderedRow) (v : ℚ),
      renderRow r = some row → rowPnl? r.pnl = some v →
      (row.pnlStyleProfit = true ↔ 0 ≤ v) := by
    intro r row v hr hv
    unfold renderRow at hr
    rw [hv] at hr
    cases hd : r.date with
    | raw d =>
      rw [hd] at hr
      have h' : (none : Option RenderedRow) = some row := hr
      cases h'
    | parsed y m d =>
      rw [hd] at hr
      have h' : some
          { date := formatDate y m d
            session := r.session
            quantity := r.quantity
            riskReward := r.riskReward
            pnlText := cellDisplayStr r.pnl
            pnlStyleProfit := decide ((0 : ℚ) ≤ v)
            percentChange := r.percentChange ++ "%"
            comments := r.comments } = some row := hr
      injection h' with h''
      subst h''
      simp
  refine ⟨hrow, ?_, ?_, ?_⟩
  · intro log st h
    by_cases hnil : log.records = []
    · unfold display_summary at h
      rw [if_pos hnil] at h
      cases h
    · unfold display_summary at h
      rw [if_neg hnil] at h
      cases hv : summaryPnlValues? log with
      | none =>
        rw [hv] at h
        have h' : SummaryResult.error = SummaryResult.stats st := h
        cases h'
      | some vals =>
        rw [hv] at h
        have h' : SummaryResult.stats
            { total := summaryTotalTrades log
              profitable := summaryProfitable vals
              losing := summaryTotalTrades log - summaryProfitable vals
              winRate := ((summaryProfitable vals : ℚ) / (summaryTotalTrades log : ℚ)) * 100
              winRateProfit := decide
                ((50 : ℚ) ≤ ((summaryProfitable vals : ℚ) / (summaryTotalTrades log : ℚ)) * 100)
              totalPnl := vals.sum
              totalPnlProfit := decide ((0 : ℚ) ≤ vals.sum) }
            = SummaryResult.stats st := h
        injection h' with h''
        subst h''
        constructor <;> simp
  · intro r row hr hv
    exact (hrow r row 0 hr hv).mpr le_rfl
  · intro vals
    unfold summaryProfitable
    rw [List.countP_cons]
    norm_num

/-- Witness for C5: a `"$0"` row is styled favorable; the one-trade journal
statistics satisfy both threshold equivalences; zero is not counted as
profitable. -/
theorem favorable_threshold_contract_witness :
    (rowZero.pnlStyleProfit = true ↔ (0 : ℚ) ≤ 0)
    ∧ ((statsOne.winRateProfit = true ↔ 50 ≤ statsOne.winRate)
        ∧ (statsOne.totalPnlProfit = true ↔ 0 ≤ statsOne.totalPnl))
    ∧ rowZero.pnlStyleProfit = true
    ∧ summaryProfitable ((0 : ℚ) :: [(1 : ℚ)]) = summaryProfitable [(1 : ℚ)] :=
  ⟨favorable_threshold_contract.1 (mkRecord (Cell.str "$0")) rowZero 0 (by decide) (by decide),
   favorable_threshold_contract.2.1 logOne statsOne (by rfl),
   favorable_threshold_contract.2.2.1 (mkRecord (Cell.str "$0")) rowZero (by decide) (by decide),
   favorable_threshold_contract.2.2.2 [(1 : ℚ)]⟩

/-- C6 counterexample: the extension gate runs before any file access, so
the missing path `"missing.txt"` is reported through the generic load-error
message for unsupported formats, not as FileNotFound — refuting the claim
for paths with unsupported extensions. -/
theorem load_missing_path_unsupported_ext_cex :
    (load_data "missing.txt" (fun _ => ReadOutcome.fileNotFound)).1 = emptyLog
    ∧ (load_data "missing.txt" (fun _ => ReadOutcome.fileNotFound)).2
        = LoadReport.loadError unsupportedFormatMsg
    ∧ (load_data "missing.txt" (fun _ => ReadOutcome.fileNotFound)).2
        ≠ LoadReport.fileNotFound "missing.txt" := by
  refine ⟨?_, ?_, ?_⟩ <;> decide

/-- C6 (amended): for every path with a supported extension (`.csv`,
`.xlsx`, `.xls`) that does not exist on the filesystem, load reports
FileNotFound and returns an empty TradeLog (a missing path with an
unsupported extension reports the unsupported-format diagnostic instead);
and on any input load either succeeds or returns the empty TradeLog with a
diagnostic — it never raises past its boundary. -/
theorem load_missing_supported_path_file_not_found
    (path : String) (fs : String → ReadOutcome)
    (p : String) (g : String → ReadOutcome)
    (hext : supportedExt (extLower path) = true)
    (hmiss : fs path = ReadOutcome.fileNotFound) :
    load_data path fs = (emptyLog, LoadReport.fileNotFound path)
    ∧ ((load_data p g).2 = LoadReport.success ∨ (load_data p g).1 = emptyLog) := by
  constructor
  · unfold load_data
    rw [if_pos hext, hmiss]
  · unfold load_data
    by_cases hsp : supportedExt (extLower p) = true
    · simp only [hsp]
      cases hg : g p with
      | fileNotFound => exact Or.inr rfl
      | readError m => exact Or.inr rfl
      | ok t =>
        by_cases hdc : t.hasDateColumn = true
        · cases hpd : parseRecordDates t.records with
          | none => exact Or.inr (by simp only [hdc, hpd, if_true])
          | some recs2 => exact Or.inl (by simp only [hdc, hpd, if_true])
        · have hdc' : t.hasDateColumn = false := by simpa using hdc
          exact Or.inl (by simp only [hdc']; rfl)
    · rw [if_neg hsp]
      exact Or.inr rfl

/-- Witness for C6 (amended): a missing `.csv` path reports FileNotFound;
a failing `.xls` read leaves the empty journal. -/
theorem load_missing_supported_path_file_not_found_witness :
    load_data "trading_journal.csv" (fun _ => ReadOutcome.fileNotFound)
      = (emptyLog, LoadReport.fileNotFound "trading_journal.csv")
    ∧ ((load_data "x.xls" (fun _ => ReadOutcome.readError "bad sheet")).2
          = LoadReport.success
        ∨ (load_data "x.xls" (fun _ => ReadOutcome.readError "bad sheet")).1
          = emptyLog) :=
  load_missing_supported_path_file_not_found "trading_journal.csv"
    (fun _ => ReadOutcome.fileNotFound) "x.xls"
    (fun _ => ReadOutcome.readError "bad sheet") (by decide) rfl

/-- C7 counterexample: the unsupported-extension failure is reported by the
same generic `except Exception` handler as any other load failure
(`"Error loading file: ..."`), so it is not a separately-kinded report —
only its message is distinct. -/
theorem load_unsupported_ext_generic_handler_cex :
    (load_data "journal.txt" (fun _ => ReadOutcome.ok ⟨false, []⟩)).2
        = LoadReport.loadError unsupportedFormatMsg
    ∧ isGenericLoadError
        (load_data "journal.txt" (fun _ => ReadOutcome.ok ⟨false, []⟩)).2 = true := by
  constructor <;> decide

/-- C7 (amended): for every path whose extension (case-insensitive) is not
`.csv`, `.xlsx` or `.xls`, load returns an empty TradeLog and reports the
distinct unsupported-format message, delivered through the generic
load-error handler (the same channel as other load failures). -/
theorem load_unsupported_ext_distinct_message
    (path : String) (fs : String → ReadOutcome)
    (hext : supportedExt (extLower path) = false) :
    load_data path fs = (emptyLog, LoadReport.loadError unsupportedFormatMsg)
    ∧ isGenericLoadError (load_data path fs).2 = true := by
  have h : load_data path fs = (emptyLog, LoadReport.loadError unsupportedFormatMsg) := by
    unfold load_data
    rw [if_neg (by simp [hext])]
  exact ⟨h, by rw [h]; rfl⟩

/-- Witness for C7 (amended) at the path `"trades.pdf"`. -/
theorem load_unsupported_ext_distinct_message_witness :
    load_data "trades.pdf" (fun _ => ReadOutcome.fileNotFound)
      = (emptyLog, LoadReport.loadError unsupportedFormatMsg)
    ∧ isGenericLoadError
        (load_data "trades.pdf" (fun _ => ReadOutcome.fileNotFound)).2 = true :=
  load_unsupported_ext_distinct_message "trades.pdf"
    (fun _ => ReadOutcome.fileNotFound) (by decide)

/-- C8: for every successfully read file with a `date` column, load parses
every date value into a calendar date; if any single date value cannot be
parsed, the entire load fails with the generic load error and yields an
empty TradeLog — no TradeLog containing the other rows is produced. -/
theorem load_date_conversion_all_or_nothing
    (path : String) (fs : String → ReadOutcome) (t : RawTable)
    (hext : supportedExt (extLower path) = true)
    (hok : fs path = ReadOutcome.ok t)
    (hdate : t.hasDateColumn = true) :
    (∀ recs : List TradeRecord, parseRecordDates t.records = some recs →
        load_data path fs = (⟨recs⟩, LoadReport.success)
        ∧ ∀ r ∈ recs, ∃ y m d, r.date = DateCell.parsed y m d)
    ∧ (∀ r ∈ t.records, parseDate r.date = none →
        load_data path fs = (emptyLog, LoadReport.loadError dateConversionErrorMsg)) := by
  constructor
  · intro recs hp
    constructor
    · unfold load_data
      simp only [hext, hok, hdate, hp, if_true]
    · refine traverseOption_forall_of_some ?_ hp
      intro a b hab
      rcases Option.map_eq_some'.mp hab with ⟨ymd, _, hb⟩
      exact ⟨ymd.1, ymd.2.1, ymd.2.2, hb ▸ rfl⟩
  · intro r hr hnone
    have hpn : parseRecordDates t.records = none := by
      unfold parseRecordDates
      apply traverseOption_eq_none_of_mem _ hr
      rw [hnone]
      rfl
    unfold load_data
    simp only [hext, hok, hdate, hpn, if_true]

/-- Witness for C8: a table whose date parses loads in full with a parsed
calendar date; a table with one bad date loads to the empty journal with
the load error. -/
theorem load_date_conversion_all_or_nothing_witness :
    (load_data "good.csv" (fun _ => ReadOutcome.ok tableGoodDates)
        = (⟨[recGoodDate]⟩, LoadReport.success)
      ∧ ∀ r ∈ [recGoodDate], ∃ y m d, r.date = DateCell.parsed y m d)
    ∧ load_data "bad.csv" (fun _ => ReadOutcome.ok tableBadDate)
        = (emptyLog, LoadReport.loadError dateConversionErrorMsg) :=
  ⟨(load_date_conversion_all_or_nothing "good.csv"
      (fun _ => ReadOutcome.ok tableGoodDates) tableGoodDates
      (by decide) rfl rfl).1 [recGoodDate] (by decide),
   (load_date_conversion_all_or_nothing "bad.csv"
      (fun _ => ReadOutcome.ok tableBadDate) tableBadDate
      (by decide) rfl rfl).2 (mkRaw "notadate" (Cell.str "$5"))
      (by decide) (by decide)⟩

/-- C10: a loaded TradeLog in which every PnL value was ingested as a plain
number (numeric column dtype, no `$` or `,` text) has every row render
successfully, yet the aggregate statistics computation fails and reports an
error, because the column-wide strip-and-parse step requires string-typed
values. -/
theorem numeric_pnl_column_renders_but_summary_errors
    (log : TradeLog)
    (hne : log.records ≠ [])
    (hnum : log.records.all (fun r => r.pnl.isNum) = true)
    (hdates : log.records.all (fun r => r.date.isParsed) = true) :
    (display_trades log).length = log.records.length
    ∧ display_summary log = SummaryResult.error := by
  constructor
  · unfold display_trades
    apply length_filterMap_of_all_isSome
    intro r hr
    have h1 : r.pnl.isNum = true := List.all_eq_true.mp hnum r hr
    have h2 : r.date.isParsed = true := List.all_eq_true.mp hdates r hr
    cases hc : r.pnl with
    | str s =>
      rw [hc] at h1
      simp [Cell.isNum] at h1
    | num q =>
      cases hd : r.date with
      | raw d =>
        rw [hd] at h2
        simp [DateCell.isParsed] at h2
      | parsed y m d =>
        unfold renderRow
        rw [hc, hd]
        rfl
  · cases hl : log.records with
    | nil => exact absurd hl hne
    | cons r rest =>
      have hr1 : r.pnl.isNum = true := by
        rw [hl] at hnum
        exact List.all_eq_true.mp hnum r (List.mem_cons_self r rest)
      have hnone : summaryPnlValues? log = none := by
        unfold summaryPnlValues?
        apply traverseOption_eq_none_of_mem (x := r.pnl)
        · rw [hl]
          exact List.mem_map_of_mem _ (List.mem_cons_self r rest)
        · cases hc : r.pnl with
          | str s =>
            rw [hc] at hr1
            simp [Cell.isNum] at hr1
          | num q => rfl
      unfold display_summary
      rw [if_neg hne, hnone]

/-- Witness for C10: a loaded two-row journal with numeric PnL cells
renders both rows but errors on statistics. -/
theorem numeric_pnl_column_renders_but_summary_errors_witness :
    (display_trades
        (load_data "nums.csv" (fun _ => ReadOutcome.ok tableNumericPnl)).1).length
      = (load_data "nums.csv" (fun _ => ReadOutcome.ok tableNumericPnl)).1.records.length
    ∧ display_summary (load_data "nums.csv" (fun _ => ReadOutcome.ok tableNumericPnl)).1
      = SummaryResult.error :=
  numeric_pnl_column_renders_but_summary_errors
    (load_data "nums.csv" (fun _ => ReadOutcome.ok tableNumericPnl)).1
    (by decide) (by decide) (by decide)

/-- C9: summary computation is deterministic and idempotent on the loaded
TradeLog, and neither rendering nor summary computation mutates the
TradeLog: the embedded methods return the journal state unchanged, and
computing the summary after rendering, or twice in a row, yields the same
result as computing it once. -/
theorem display_methods_pure_and_idempotent (log : TradeLog) :
    (display_trades_proc log).1 = log
    ∧ (display_summary_proc log).1 = log
    ∧ (display_summary_proc ((display_trades_proc log).1)).2 = display_summary log
    ∧ (display_summary_proc ((display_summary_proc log).1)).2
        = (display_summary_proc log).2 :=
  ⟨rfl, rfl, rfl, rfl⟩

end PnlGui
